import Mathlib

/-!
Verification development for the Saborê desktop dashboard analytics engine
(files data_processor.py and analytics.py of the repository).

Monetary amounts and other Python floats are embedded as exact rationals
(Rat); Python ints are Nat/Int.  Order records are Python dicts read with
optional-key lookups, embedded as structures of Option fields together with
the get-with-default accessors the code uses.

Timestamps: the code stores the raw field data_pedido, which may be absent
or falsy (skipped by the "if not data_pedido: continue" guard), may be a
string that datetime.fromisoformat accepts (possibly after replacing a Z
suffix), may already be a datetime value, or may be a truthy string that
fails to parse (the surrounding try/except then skips the record for the
time-keyed aggregation at hand).  The stdlib parser itself is not
repository code; it is embedded as an oracle: the field TSField records
the outcome of that conversion (missing / parseable to a naive datetime /
unparseable), and the per-record control flow of every aggregation is
translated faithfully against that outcome.  Naive datetimes are embedded
as the structure DT below, with the calendar arithmetic of the Python
datetime module (proleptic Gregorian ordinals, weekday, ISO calendar)
implemented from its documented definitions.
-/

/-- Naive datetime: year-month-day hour:minute:second, as produced by
datetime.fromisoformat on a timezone-free ISO string. -/
structure DT where
  year : Nat
  month : Nat
  day : Nat
  hour : Nat
  minute : Nat
  second : Nat
deriving DecidableEq, Repr

/-- Gregorian leap year, as in the Python calendar module. -/
def isLeap (y : Nat) : Bool :=
  (y % 4 == 0 && y % 100 != 0) || y % 400 == 0

/-- Days in a month (1 = January .. 12 = December). -/
def daysInMonth (y m : Nat) : Nat :=
  if m = 2 then (if isLeap y then 29 else 28)
  else if m = 4 ∨ m = 6 ∨ m = 9 ∨ m = 11 then 30
  else 31

/-- Number of days before January 1 of the given year in the proleptic
Gregorian calendar (datetime._days_before_year). -/
def daysBeforeYear (y : Nat) : Nat :=
  (y - 1) * 365 + (y - 1) / 4 - (y - 1) / 100 + (y - 1) / 400

/-- Number of days in the given year strictly before the first of the
given month (datetime._days_before_month). -/
def daysBeforeMonth (y m : Nat) : Nat :=
  ((List.range (m - 1)).map (fun i => daysInMonth y (i + 1))).sum

/-- Proleptic Gregorian ordinal of a calendar date, with January 1 of
year 1 having ordinal 1 (datetime.toordinal). -/
def ymd2ord (y m d : Nat) : Nat :=
  daysBeforeYear y + daysBeforeMonth y m + d

/-- Ordinal of the datetime. -/
def DT.toOrdinal (t : DT) : Nat :=
  ymd2ord t.year t.month t.day

/-- Day of week, Monday = 0 .. Sunday = 6 (datetime.weekday). -/
def DT.weekday (t : DT) : Nat :=
  (t.toOrdinal + 6) % 7

/-- Ordinal of the Monday starting ISO week 1 of the given year
(datetime._isoweek1monday). -/
def isoweek1monday (y : Nat) : Int :=
  let firstday : Int := ymd2ord y 1 1
  let firstweekday : Int := (firstday + 6).emod 7
  let week1monday : Int := firstday - firstweekday
  if 3 < firstweekday then week1monday + 7 else week1monday

/-- ISO calendar (ISO year, ISO week number) of the date
(datetime.isocalendar, dropping the weekday component). -/
def DT.isocalendar (t : DT) : Nat × Nat :=
  let today : Int := t.toOrdinal
  let week : Int := (today - isoweek1monday t.year).fdiv 7
  if week < 0 then
    (t.year - 1, ((today - isoweek1monday (t.year - 1)).fdiv 7 + 1).toNat)
  else if 52 ≤ week ∧ isoweek1monday (t.year + 1) ≤ today then
    (t.year + 1, 1)
  else
    (t.year, (week + 1).toNat)

/-- Natural number rendered in decimal, left-padded with zeros to width 2. -/
def pad2 (n : Nat) : String :=
  if n < 10 then "0" ++ toString n else toString n

/-- Natural number rendered in decimal, left-padded with zeros to width 4. -/
def pad4 (n : Nat) : String :=
  if n < 10 then "000" ++ toString n
  else if n < 100 then "00" ++ toString n
  else if n < 1000 then "0" ++ toString n
  else toString n

/-- strftime with format %Y-%m-%d. -/
def DT.fmtDay (t : DT) : String :=
  pad4 t.year ++ "-" ++ pad2 t.month ++ "-" ++ pad2 t.day

/-- strftime with format %Y-%m. -/
def DT.fmtMonth (t : DT) : String :=
  pad4 t.year ++ "-" ++ pad2 t.month

/-- datetime.isoformat for a whole-second naive datetime. -/
def DT.isoformat (t : DT) : String :=
  t.fmtDay ++ "T" ++ pad2 t.hour ++ ":" ++ pad2 t.minute ++ ":" ++ pad2 t.second

/-- Seconds since the epoch of the proleptic calendar; datetime comparison
and subtraction of day-valued timedeltas factor through this strictly
monotone key. -/
def DT.toSec (t : DT) : Int :=
  (t.toOrdinal : Int) * 86400 + t.hour * 3600 + t.minute * 60 + t.second

/-- Outcome of reading and converting the data_pedido field of an order:
absent or falsy; convertible to a naive datetime; or a truthy value whose
conversion raises (caught by the per-record try/except). -/
inductive TSField where
  | missing : TSField
  | parseable : DT → TSField
  | unparseable : TSField
deriving DecidableEq, Repr

/-- One line item of an order (a Python dict with optional keys). -/
structure Item where
  nome : Option String
  quantidade : Option Rat
  valor : Option Rat
  preco_unitario : Option Rat
deriving DecidableEq, Repr

/-- One order record (a Python dict with optional keys). -/
structure Pedido where
  id : Option Nat
  itens : Option (List Item)
  valor_total : Option Rat
  data_pedido : TSField
deriving DecidableEq, Repr

/-- pedido.get("valor_total", 0). -/
def Pedido.valorTotal (p : Pedido) : Rat :=
  p.valor_total.getD 0

/-- item.get("valor", 0) * item.get("quantidade", 1), the contribution of
one line item inside calcular_vendas_totais. -/
def itemContrib (it : Item) : Rat :=
  it.valor.getD 0 * it.quantidade.getD 1

/-- DataProcessor.calcular_vendas_totais: accumulate, for each order, the
sum of valor * quantidade over its line items when the key itens is
present, and valor_total otherwise. -/
def calcular_vendas_totais (pedidos : List Pedido) : Rat :=
  pedidos.foldl
    (fun total p =>
      match p.itens with
      | some its => its.foldl (fun t it => t + itemContrib it) total
      | none => total + p.valor_total.getD 0)
    0

/-- Value contributed by a single order to calcular_vendas_totais. -/
def pedidoContrib (p : Pedido) : Rat :=
  match p.itens with
  | some its => (its.map itemContrib).sum
  | none => p.valor_total.getD 0

/-- Insert x into l, placing it before the first element h with le x h.
Folding this over the input from the right, with le chosen as "x may
precede h under the sort key", is the stable sort performed by Python
sorted. -/
def insertBy {α : Type} (le : α → α → Bool) (x : α) : List α → List α
  | [] => [x]
  | h :: t => if le x h then x :: h :: t else h :: insertBy le x t

/-- Stable insertion sort: the embedding of Python sorted. -/
def sortBy {α : Type} (le : α → α → Bool) (l : List α) : List α :=
  l.foldr (insertBy le) []

/-- Embedding of the dict update pattern: if chave not in d, set d[chave]
to 0.0, then add v to d[chave].  Existing keys keep their position; a new
key is appended, matching Python dict insertion order. -/
def addTo (l : List (String × Rat)) (k : String) (v : Rat) : List (String × Rat) :=
  match l with
  | [] => [(k, v)]
  | (k1, v1) :: t => if k1 = k then (k1, v1 + v) :: t else (k1, v1) :: addTo t k v

/-- Period key of a datetime for the given tipo_periodo, as computed in
DataProcessor.agrupar_por_periodo: day and month via strftime, week via
the f-string joining the calendar year attribute with the ISO week
number. -/
def chavePeriodo (tipo : String) (d : DT) : String :=
  if tipo = "dia" then d.fmtDay
  else if tipo = "semana" then toString d.year ++ "-S" ++ toString d.isocalendar.2
  else if tipo = "mes" then d.fmtMonth
  else d.fmtDay

/-- Loop body of agrupar_por_periodo: records with a missing timestamp are
skipped by the falsy guard, records whose conversion raises are skipped by
the except-continue, and the rest accumulate valor_total under their
period key. -/
def agrupaStep (tipo : String) (acc : List (String × Rat)) (p : Pedido) :
    List (String × Rat) :=
  match p.data_pedido with
  | TSField.missing => acc
  | TSField.unparseable => acc
  | TSField.parseable d => addTo acc (chavePeriodo tipo d) p.valorTotal

/-- DataProcessor.agrupar_por_periodo: accumulate valor_total per period
key over the records with a usable timestamp, then return the buckets
sorted ascending by key (dict(sorted(d.items()))). -/
def agrupar_por_periodo (pedidos : List Pedido) (tipo : String) :
    List (String × Rat) :=
  sortBy (fun a b => decide (a.1 ≤ b.1)) (pedidos.foldl (agrupaStep tipo) [])

/-- The timestamp of the record is present and its conversion succeeds. -/
def temDataValida (p : Pedido) : Bool :=
  match p.data_pedido with
  | TSField.parseable _ => true
  | _ => false

/-- One entry of the contador_itens dict in
DataProcessor.itens_mais_populares. -/
structure ItemCount where
  quantidade_total : Rat
  valor_total : Rat
  nome : String
deriving DecidableEq, Repr

/-- Record one line item occurrence into the counter: an existing name
keeps its position and accumulates, a new name is appended (Python dict
insertion order = first-encounter order). -/
def bumpItem (nome : String) (q v : Rat) : List ItemCount → List ItemCount
  | [] => [⟨q, v * q, nome⟩]
  | c :: t =>
      if c.nome = nome then
        { c with quantidade_total := c.quantidade_total + q,
                 valor_total := c.valor_total + v * q } :: t
      else c :: bumpItem nome q v t

/-- The contador_itens dict of itens_mais_populares after the scan of the
batch, as a list of entries in first-encounter order of the item names. -/
def contadorItens (pedidos : List Pedido) : List ItemCount :=
  pedidos.foldl
    (fun acc p =>
      match p.itens with
      | none => acc
      | some its =>
          its.foldl
            (fun acc2 it =>
              bumpItem (it.nome.getD "Item sem nome") (it.quantidade.getD 1)
                (it.preco_unitario.getD (it.valor.getD 0)) acc2)
            acc)
    []

/-- The counter entries sorted descending by quantidade_total with the
stable sort of Python sorted(..., reverse=True). -/
def itensOrdenados (pedidos : List Pedido) : List ItemCount :=
  sortBy (fun a b => decide (b.quantidade_total ≤ a.quantidade_total))
    (contadorItens pedidos)

/-- DataProcessor.itens_mais_populares: the sorted counter truncated to
the first limite entries. -/
def itens_mais_populares (pedidos : List Pedido) (limite : Nat := 10) :
    List ItemCount :=
  (itensOrdenados pedidos).take limite

/-- dict update of the hour counter: a missing hour key starts at 0,
then increments. -/
def addNat : List (Nat × Nat) → Nat → List (Nat × Nat)
  | [], h => [(h, 1)]
  | (k, c) :: t, h => if k = h then (k, c + 1) :: t else (k, c) :: addNat t h

/-- Loop body of horarios_pico: count one order per hour of a usable
timestamp. -/
def horaStep (acc : List (Nat × Nat)) (p : Pedido) : List (Nat × Nat) :=
  match p.data_pedido with
  | TSField.parseable d => addNat acc d.hour
  | _ => acc

/-- DataProcessor.horarios_pico: orders counted per hour of day, buckets
returned sorted ascending by hour (dict(sorted(d.items()))). -/
def horarios_pico (pedidos : List Pedido) : List (Nat × Nat) :=
  sortBy (fun a b => decide (a.1 ≤ b.1)) (pedidos.foldl horaStep [])

/-- calendar.day_name of the weekday index (English locale, Monday
first), as indexed by datetime.weekday(). -/
def dayName (w : Nat) : String :=
  match w with
  | 0 => "Monday"
  | 1 => "Tuesday"
  | 2 => "Wednesday"
  | 3 => "Thursday"
  | 4 => "Friday"
  | 5 => "Saturday"
  | _ => "Sunday"

/-- Loop body of dias_semana_performance: accumulate valor_total under
the weekday name of a usable timestamp. -/
def diaSemanaStep (acc : List (String × Rat)) (p : Pedido) : List (String × Rat) :=
  match p.data_pedido with
  | TSField.parseable d => addTo acc (dayName d.weekday) p.valorTotal
  | _ => acc

/-- DataProcessor.dias_semana_performance: valor_total summed per weekday
name, in first-encounter order (this dict is returned unsorted). -/
def dias_semana_performance (pedidos : List Pedido) : List (String × Rat) :=
  pedidos.foldl diaSemanaStep []

/-- Python round to the nearest integer with ties to even, on exact
rationals. -/
def roundHalfEven (q : Rat) : Int :=
  let f : Int := ⌊q⌋
  let r : Rat := q - f
  if r < 1/2 then f
  else if 1/2 < r then f + 1
  else if f % 2 = 0 then f else f + 1

/-- Python round(x, 2) on exact rationals. -/
def round2 (q : Rat) : Rat :=
  (roundHalfEven (q * 100) : Rat) / 100

/-- DataProcessor.calcular_crescimento_vendas: partition the usable
records into the trailing window of dias days before agora and the window
of dias days before that, compare the two window totals.  The wall-clock
instant datetime.now() is the explicit parameter agora; datetime
comparison and the day-valued timedelta subtractions are carried out on
the strictly monotone second-count key DT.toSec.  crescStep is its loop
body. -/
def crescStep (periodo_atual periodo_anterior : Int)
    (acc : List Pedido × List Pedido) (p : Pedido) : List Pedido × List Pedido :=
  match p.data_pedido with
  | TSField.parseable d =>
      if periodo_atual ≤ d.toSec then (acc.1 ++ [p], acc.2)
      else if periodo_anterior ≤ d.toSec ∧ d.toSec < periodo_atual then
        (acc.1, acc.2 ++ [p])
      else acc
  | _ => acc

def calcular_crescimento_vendas (pedidos : List Pedido) (dias : Nat) (agora : DT) : Rat :=
  let periodo_atual : Int := agora.toSec - (dias : Int) * 86400
  let periodo_anterior : Int := periodo_atual - (dias : Int) * 86400
  let par := pedidos.foldl (crescStep periodo_atual periodo_anterior) ([], [])
  let total_atual := calcular_vendas_totais par.1
  let total_anterior := calcular_vendas_totais par.2
  if total_anterior = 0 then (if 0 < total_atual then 100 else 0)
  else round2 ((total_atual - total_anterior) / total_anterior * 100)

/-- Dict returned by SaboreAnalytics.calcular_metricas_principais. -/
structure Metricas where
  vendas_totais : Rat
  ticket_medio : Rat
  total_pedidos : Nat
  crescimento_percentual : Rat
deriving DecidableEq, Repr

/-- SaboreAnalytics.calcular_metricas_principais: all-zero defaults on an
empty batch, otherwise total sales, average ticket, order count, and the
growth percentage against the previous 30-day window. -/
def calcular_metricas_principais (pedidos : List Pedido) (agora : DT) : Metricas :=
  if pedidos = [] then ⟨0, 0, 0, 0⟩
  else
    let vendas_totais := calcular_vendas_totais pedidos
    let total_pedidos := pedidos.length
    let ticket_medio := if 0 < total_pedidos then vendas_totais / total_pedidos else 0
    ⟨vendas_totais, ticket_medio, total_pedidos,
      calcular_crescimento_vendas pedidos 30 agora⟩

/-- statistics.median on exact rationals: middle element of the sorted
values, or the mean of the two middle elements. -/
def medianRat (valores : List Rat) : Rat :=
  let s := sortBy (fun a b => decide (a ≤ b)) valores
  let n := s.length
  if n % 2 = 1 then s.getD (n / 2) 0
  else (s.getD (n / 2 - 1) 0 + s.getD (n / 2) 0) / 2

/-- Sample variance Σ(x − x̄)² / (n − 1), the square of statistics.stdev. -/
def varAmostral (valores : List Rat) : Rat :=
  let n := valores.length
  let m := valores.sum / n
  (valores.map (fun x => (x - m) * (x - m))).sum / ((n : Rat) - 1)

/-- The id / valor / data summary dict built for the extreme orders in
calcular_estatisticas_avancadas. -/
structure PedidoResumo where
  id : Option Nat
  valor : Rat
  data : TSField
deriving DecidableEq, Repr

def Pedido.resumo (p : Pedido) : PedidoResumo :=
  ⟨p.id, p.valorTotal, p.data_pedido⟩

/-- Python max(pedidos, key=valor_total): keeps the first of several
maximal elements (replaces only on strictly greater). -/
def maxPorValor (p : Pedido) (ps : List Pedido) : Pedido :=
  ps.foldl (fun best x => if best.valorTotal < x.valorTotal then x else best) p

/-- Python min(pedidos, key=valor_total): keeps the first of several
minimal elements (replaces only on strictly smaller). -/
def minPorValor (p : Pedido) (ps : List Pedido) : Pedido :=
  ps.foldl (fun best x => if x.valorTotal < best.valorTotal then x else best) p

/-- Dict returned by SaboreAnalytics.calcular_estatisticas_avancadas when
the batch is nonempty.  statistics.stdev returns the square root of the
field desvio_padrao_sq; the square root is injective on nonnegative
values, so storing the radicand preserves equality (and inequality) of
reports while keeping the embedding executable over the rationals. -/
structure EstAvancadas where
  media_valor_pedido : Rat
  mediana_valor_pedido : Rat
  desvio_padrao_sq : Rat
  maior_pedido : PedidoResumo
  menor_pedido : PedidoResumo
deriving DecidableEq, Repr

/-- SaboreAnalytics.calcular_estatisticas_avancadas: empty dict (none) on
an empty batch, otherwise mean / median / stdev of the valor_total
values and the summaries of the extreme orders. -/
def calcular_estatisticas_avancadas (pedidos : List Pedido) : Option EstAvancadas :=
  match pedidos with
  | [] => none
  | p :: ps =>
      let valores := (p :: ps).map Pedido.valorTotal
      some
        { media_valor_pedido := valores.sum / valores.length
          mediana_valor_pedido := medianRat valores
          desvio_padrao_sq := if 1 < valores.length then varAmostral valores else 0
          maior_pedido := (maxPorValor p ps).resumo
          menor_pedido := (minPorValor p ps).resumo }

/-- Dict returned by SaboreAnalytics.analise_tendencia_vendas; the
inclinacao key is present only on the regression path. -/
structure Tendencia where
  tendencia : String
  crescimento_diario : Rat
  inclinacao : Option Rat
deriving DecidableEq, Repr

/-- SaboreAnalytics.analise_tendencia_vendas: filter to the trailing
window of dias days before agora, group by day, and classify the sign of
the least-squares slope of bucket value against bucket index. -/
def analise_tendencia_vendas (pedidos : List Pedido) (dias : Nat) (agora : DT) :
    Tendencia :=
  let data_inicio : Int := agora.toSec - (dias : Int) * 86400
  let pedidos_periodo :=
    pedidos.foldl
      (fun acc p =>
        match p.data_pedido with
        | TSField.parseable d => if data_inicio ≤ d.toSec then acc ++ [p] else acc
        | _ => acc)
      []
  if pedidos_periodo = [] then ⟨"estavel", 0, none⟩
  else
    let vendas_por_dia := agrupar_por_periodo pedidos_periodo "dia"
    if vendas_por_dia.length < 2 then ⟨"estavel", 0, none⟩
    else
      let valores := vendas_por_dia.map Prod.snd
      let n := valores.length
      let media_x : Rat := (((List.range n).map (fun i => (i : Rat))).sum) / n
      let media_y : Rat := valores.sum / n
      let numerador :=
        ((List.range n).map
          (fun (i : Nat) => ((i : Rat) - media_x) * (valores.getD i 0 - media_y))).sum
      let denominador :=
        ((List.range n).map
          (fun (i : Nat) => ((i : Rat) - media_x) * ((i : Rat) - media_x))).sum
      if denominador ≠ 0 then
        let inclinacao := numerador / denominador
        let tendencia :=
          if 0 < inclinacao then "crescente"
          else if inclinacao < 0 then "decrescente"
          else "estavel"
        ⟨tendencia, inclinacao, some inclinacao⟩
      else ⟨"estavel", 0, none⟩

/-- SaboreAnalytics.previsao_vendas_simples: flat-line forecast repeating
the moving average of the trailing daily buckets. -/
def previsao_vendas_simples (pedidos : List Pedido) (dias_futuros : Nat) : List Rat :=
  if pedidos = [] then List.replicate dias_futuros 0
  else
    let vendas_por_dia := agrupar_por_periodo pedidos "dia"
    if vendas_por_dia = [] then List.replicate dias_futuros 0
    else
      let valores := vendas_por_dia.map Prod.snd
      let media_movel :=
        if 7 ≤ valores.length then (valores.drop (valores.length - 7)).sum / 7
        else valores.sum / valores.length
      List.replicate dias_futuros media_movel

/-- Dict returned by SaboreAnalytics.gerar_relatorio_completo. -/
structure Relatorio where
  metricas_principais : Metricas
  estatisticas_avancadas : Option EstAvancadas
  tendencia_vendas : Tendencia
  previsao_vendas : List Rat
  horarios_pico : List (Nat × Nat)
  dias_semana_performance : List (String × Rat)
  itens_mais_vendidos : List ItemCount
  vendas_por_dia : List (String × Rat)
  vendas_por_semana : List (String × Rat)
  vendas_por_mes : List (String × Rat)
  data_geracao : String
deriving DecidableEq, Repr

/-- SaboreAnalytics.gerar_relatorio_completo, with the wall-clock instant
datetime.now() of the invocation as the explicit parameter agora (it
feeds the growth window, the trend window and the data_geracao field). -/
def gerar_relatorio_completo (pedidos : List Pedido) (agora : DT) : Relatorio :=
  { metricas_principais := calcular_metricas_principais pedidos agora
    estatisticas_avancadas := calcular_estatisticas_avancadas pedidos
    tendencia_vendas := analise_tendencia_vendas pedidos 30 agora
    previsao_vendas := previsao_vendas_simples pedidos 7
    horarios_pico := horarios_pico pedidos
    dias_semana_performance := dias_semana_performance pedidos
    itens_mais_vendidos := itens_mais_populares pedidos 10
    vendas_por_dia := agrupar_por_periodo pedidos "dia"
    vendas_por_semana := agrupar_por_periodo pedidos "semana"
    vendas_por_mes := agrupar_por_periodo pedidos "mes"
    data_geracao := agora.isoformat }

/-- The record falls in the current trailing window: its timestamp is
usable and at least periodo_atual. -/
def naJanelaAtual (periodo_atual : Int) (p : Pedido) : Bool :=
  match p.data_pedido with
  | TSField.parseable d => decide (periodo_atual ≤ d.toSec)
  | _ => false

/-- The record falls in the previous window: its timestamp is usable and
in [periodo_anterior, periodo_atual). -/
def naJanelaAnterior (periodo_atual periodo_anterior : Int) (p : Pedido) : Bool :=
  match p.data_pedido with
  | TSField.parseable d => decide (periodo_anterior ≤ d.toSec ∧ d.toSec < periodo_atual)
  | _ => false

/-- Sales total of the current window of dias days before agora. -/
def vendasJanelaAtual (pedidos : List Pedido) (dias : Nat) (agora : DT) : Rat :=
  calcular_vendas_totais
    (pedidos.filter (naJanelaAtual (agora.toSec - (dias : Int) * 86400)))

/-- Sales total of the window of dias days before that. -/
def vendasJanelaAnterior (pedidos : List Pedido) (dias : Nat) (agora : DT) : Rat :=
  calcular_vendas_totais
    (pedidos.filter
      (naJanelaAnterior (agora.toSec - (dias : Int) * 86400)
        (agora.toSec - (dias : Int) * 86400 - (dias : Int) * 86400)))

/-- Timestamps of the spec scenario batch. -/
def cenarioDia1 : DT := ⟨2024, 3, 1, 12, 0, 0⟩

def cenarioDia2 : DT := ⟨2024, 3, 2, 12, 0, 0⟩

/-- The three-order scenario batch of the spec: total values 100, 200 and
50, no line items, timestamps on two days. -/
def cenarioLote : List Pedido :=
  [⟨none, none, some 100, TSField.parseable cenarioDia1⟩,
   ⟨none, none, some 200, TSField.parseable cenarioDia1⟩,
   ⟨none, none, some 50, TSField.parseable cenarioDia2⟩]

/-- A reference instant for concrete evaluations. -/
def cenarioAgora : DT := ⟨2024, 3, 10, 0, 0, 0⟩

/-- An order whose itens key is present but empty. -/
def pedidoItensVazio : Pedido := ⟨none, some [], some 50, TSField.missing⟩

/-- An order with a present but unparseable timestamp. -/
def pedidoDataRuim : Pedido := ⟨none, none, some 75, TSField.unparseable⟩

/-- An order placed on 2021-01-01, a day whose ISO year (2020) differs
from its calendar year (2021). -/
def pedidoViradaAno : Pedido :=
  ⟨none, none, some 10, TSField.parseable ⟨2021, 1, 1, 0, 0, 0⟩⟩

/-- One order per day for ten consecutive days, with total values
10, 20, ..., 100. -/
def cenarioLote10 : List Pedido :=
  [⟨none, none, some 10, TSField.parseable ⟨2024, 3, 1, 9, 0, 0⟩⟩,
   ⟨none, none, some 20, TSField.parseable ⟨2024, 3, 2, 9, 0, 0⟩⟩,
   ⟨none, none, some 30, TSField.parseable ⟨2024, 3, 3, 9, 0, 0⟩⟩,
   ⟨none, none, some 40, TSField.parseable ⟨2024, 3, 4, 9, 0, 0⟩⟩,
   ⟨none, none, some 50, TSField.parseable ⟨2024, 3, 5, 9, 0, 0⟩⟩,
   ⟨none, none, some 60, TSField.parseable ⟨2024, 3, 6, 9, 0, 0⟩⟩,
   ⟨none, none, some 70, TSField.parseable ⟨2024, 3, 7, 9, 0, 0⟩⟩,
   ⟨none, none, some 80, TSField.parseable ⟨2024, 3, 8, 9, 0, 0⟩⟩,
   ⟨none, none, some 90, TSField.parseable ⟨2024, 3, 9, 9, 0, 0⟩⟩,
   ⟨none, none, some 100, TSField.parseable ⟨2024, 3, 10, 9, 0, 0⟩⟩]

/-- A two-order batch with one order of value 150 in the current 3-day
window before cenarioAgora and one order of value 100 in the previous
3-day window. -/
def cenarioCrescimento : List Pedido :=
  [⟨none, none, some 150, TSField.parseable ⟨2024, 3, 8, 12, 0, 0⟩⟩,
   ⟨none, none, some 100, TSField.parseable ⟨2024, 3, 5, 12, 0, 0⟩⟩]

theorem foldl_itemContrib (its : List Item) (a : Rat) :
    its.foldl (fun t it => t + itemContrib it) a = a + (its.map itemContrib).sum := by
  induction its generalizing a with
  | nil => simp
  | cons x xs ih => simp [List.foldl_cons, ih, add_assoc]

theorem calcular_vendas_totais_foldl (pedidos : List Pedido) (a : Rat) :
    pedidos.foldl
      (fun total p =>
        match p.itens with
        | some its => its.foldl (fun t it => t + itemContrib it) total
        | none => total + p.valor_total.getD 0)
      a = a + (pedidos.map pedidoContrib).sum := by
  induction pedidos generalizing a with
  | nil => simp
  | cons p ps ih =>
      rw [List.foldl_cons, ih]
      cases h : p.itens with
      | none => simp [pedidoContrib, h, add_assoc]
      | some its => simp [pedidoContrib, h, foldl_itemContrib, add_assoc]

theorem calcular_vendas_totais_eq_sum (pedidos : List Pedido) :
    calcular_vendas_totais pedidos = (pedidos.map pedidoContrib).sum := by
  have h := calcular_vendas_totais_foldl pedidos 0
  simpa [calcular_vendas_totais] using h

theorem insertBy_perm {α : Type} (le : α → α → Bool) (x : α) (l : List α) :
    List.Perm (insertBy le x l) (x :: l) := by
  induction l with
  | nil => exact List.Perm.refl _
  | cons h t ih =>
      cases hc : le x h with
      | true => simp [insertBy, hc]
      | false =>
          simp only [insertBy, hc, Bool.false_eq_true, if_false]
          exact List.Perm.trans (List.Perm.cons h ih) (List.Perm.swap x h t)

theorem sortBy_perm {α : Type} (le : α → α → Bool) (l : List α) :
    List.Perm (sortBy le l) l := by
  induction l with
  | nil => exact List.Perm.refl _
  | cons h t ih =>
      exact List.Perm.trans (insertBy_perm le h (sortBy le t)) (List.Perm.cons h ih)

theorem mem_insertBy {α : Type} {le : α → α → Bool} {x y : α} {l : List α} :
    y ∈ insertBy le x l ↔ y = x ∨ y ∈ l := by
  rw [(insertBy_perm le x l).mem_iff]
  simp

/-- Inserting x preserves pairwise R, provided x relates correctly to the
elements already present. -/
theorem insertBy_pairwise {α : Type} {R : α → α → Prop} {le : α → α → Bool}
    (htr : ∀ a b c, le a b = true → R b c → le a c = true)
    {x : α} {l : List α}
    (hle : ∀ y ∈ l, le x y = true → R x y)
    (hgt : ∀ y ∈ l, le x y = false → R y x)
    (hp : l.Pairwise R) : (insertBy le x l).Pairwise R := by
  induction l with
  | nil => simp [insertBy]
  | cons h t ih =>
      rw [List.pairwise_cons] at hp
      cases hc : le x h with
      | true =>
          simp only [insertBy, hc, if_true]
          rw [List.pairwise_cons]
          refine ⟨?_, List.pairwise_cons.mpr hp⟩
          intro y hy
          rcases List.mem_cons.mp hy with hyh | hyt
          · rw [hyh]
            exact hle h (List.mem_cons_self _ _) hc
          · exact hle y (List.mem_cons_of_mem _ hyt) (htr x h y hc (hp.1 y hyt))
      | false =>
          simp only [insertBy, hc, Bool.false_eq_true, if_false]
          rw [List.pairwise_cons]
          constructor
          · intro y hy
            rcases mem_insertBy.mp hy with hyx | hyt
            · rw [hyx]
              exact hgt h (List.mem_cons_self _ _) hc
            · exact hp.1 y hyt
          · exact ih (fun y hy => hle y (List.mem_cons_of_mem _ hy))
              (fun y hy => hgt y (List.mem_cons_of_mem _ hy)) hp.2

/-- Sorting yields pairwise R when le decides R along the original
pairwise relation S of the input list. -/
theorem sortBy_pairwise {α : Type} {R S : α → α → Prop} {le : α → α → Bool}
    (htr : ∀ a b c, le a b = true → R b c → le a c = true)
    (h1 : ∀ a b, S a b → le a b = true → R a b)
    (h2 : ∀ a b, S a b → le a b = false → R b a)
    {l : List α} (hS : l.Pairwise S) : (sortBy le l).Pairwise R := by
  induction l with
  | nil => simp [sortBy]
  | cons x t ih =>
      rw [List.pairwise_cons] at hS
      have hmem : ∀ y ∈ sortBy le t, y ∈ t := fun y hy => (sortBy_perm le t).mem_iff.mp hy
      exact insertBy_pairwise htr
        (fun y hy hxy => h1 x y (hS.1 y (hmem y hy)) hxy)
        (fun y hy hxy => h2 x y (hS.1 y (hmem y hy)) hxy)
        (ih hS.2)

theorem insertBy_filter_pos {α : Type} {le : α → α → Bool} {p : α → Bool}
    {x : α} (l : List α) (hpx : p x = true)
    (hskip : ∀ h, le x h = false → p h = false) :
    (insertBy le x l).filter p = x :: l.filter p := by
  induction l with
  | nil => simp [insertBy, List.filter, hpx]
  | cons h t ih =>
      cases hc : le x h with
      | true => simp [insertBy, hc, List.filter, hpx]
      | false =>
          have hph : p h = false := hskip h hc
          simp [insertBy, hc, List.filter, hph, ih]

theorem insertBy_filter_neg {α : Type} {le : α → α → Bool} {p : α → Bool}
    {x : α} (l : List α) (hpx : p x = false) :
    (insertBy le x l).filter p = l.filter p := by
  induction l with
  | nil => simp [insertBy, List.filter, hpx]
  | cons h t ih =>
      cases hc : le x h with
      | true => simp [insertBy, hc, List.filter, hpx]
      | false =>
          cases hph : p h with
          | true => simp [insertBy, hc, List.filter, hph, ih]
          | false => simp [insertBy, hc, List.filter, hph, ih]

/-- Stability of the sort: a filter that keeps only elements the
comparison never strictly reorders past each other commutes with
sorting, i.e. those elements appear in their original relative order. -/
theorem sortBy_filter {α : Type} (le : α → α → Bool) (p : α → Bool)
    (hcomp : ∀ x h, p x = true → le x h = false → p h = false)
    (l : List α) : (sortBy le l).filter p = l.filter p := by
  induction l with
  | nil => rfl
  | cons x t ih =>
      cases hpx : p x with
      | true =>
          calc (sortBy le (x :: t)).filter p
              = (insertBy le x (sortBy le t)).filter p := rfl
            _ = x :: (sortBy le t).filter p :=
                insertBy_filter_pos _ hpx (fun h hh => hcomp x h hpx hh)
            _ = x :: t.filter p := by rw [ih]
            _ = (x :: t).filter p := by simp [List.filter, hpx]
      | false =>
          calc (sortBy le (x :: t)).filter p
              = (insertBy le x (sortBy le t)).filter p := rfl
            _ = (sortBy le t).filter p := insertBy_filter_neg _ hpx
            _ = t.filter p := ih
            _ = (x :: t).filter p := by simp [List.filter, hpx]

theorem addTo_sum (l : List (String × Rat)) (k : String) (v : Rat) :
    ((addTo l k v).map Prod.snd).sum = (l.map Prod.snd).sum + v := by
  induction l with
  | nil => simp [addTo]
  | cons h t ih =>
      obtain ⟨k1, v1⟩ := h
      by_cases hk : k1 = k
      · simp [addTo, hk, add_assoc, add_comm]
      · simp [addTo, hk, ih]
        ring

theorem addTo_keys (l : List (String × Rat)) (k : String) (v : Rat) :
    (addTo l k v).map Prod.fst =
      if k ∈ l.map Prod.fst then l.map Prod.fst else l.map Prod.fst ++ [k] := by
  induction l with
  | nil => simp [addTo]
  | cons h t ih =>
      obtain ⟨k1, v1⟩ := h
      by_cases hk : k1 = k
      · simp [addTo, hk]
      · have hk2 : ¬ (k = k1) := fun hh => hk hh.symm
        by_cases hm : k ∈ t.map Prod.fst <;>
          simp [addTo, hk, ih, hk2, hm]

theorem addTo_nodup (l : List (String × Rat)) (k : String) (v : Rat)
    (h : (l.map Prod.fst).Nodup) : ((addTo l k v).map Prod.fst).Nodup := by
  rw [addTo_keys]
  by_cases hm : k ∈ l.map Prod.fst
  · simpa [hm] using h
  · simp only [hm, if_false]
    rw [List.nodup_append]
    refine ⟨h, List.nodup_singleton k, ?_⟩
    intro a ha hb
    rw [List.mem_singleton] at hb
    rw [hb] at ha
    exact hm ha

theorem addTo_key_mem (l : List (String × Rat)) (k : String) (v : Rat) :
    k ∈ (addTo l k v).map Prod.fst := by
  rw [addTo_keys]
  by_cases hm : k ∈ l.map Prod.fst <;> simp [hm]

theorem addTo_key_mono (l : List (String × Rat)) (k k1 : String) (v : Rat)
    (h : k1 ∈ l.map Prod.fst) : k1 ∈ (addTo l k v).map Prod.fst := by
  rw [addTo_keys]
  by_cases hm : k ∈ l.map Prod.fst <;> simp [hm, h]

theorem agrupaFold_sum (tipo : String) (pedidos : List Pedido)
    (acc : List (String × Rat)) :
    ((pedidos.foldl (agrupaStep tipo) acc).map Prod.snd).sum =
      (acc.map Prod.snd).sum +
        ((pedidos.filter temDataValida).map Pedido.valorTotal).sum := by
  induction pedidos generalizing acc with
  | nil => simp
  | cons p ps ih =>
      rw [List.foldl_cons, ih]
      cases hd : p.data_pedido with
      | missing => simp [agrupaStep, hd, List.filter, temDataValida]
      | unparseable => simp [agrupaStep, hd, List.filter, temDataValida]
      | parseable d =>
          simp [agrupaStep, hd, List.filter, temDataValida, addTo_sum]
          ring

theorem agrupaFold_nodup (tipo : String) (pedidos : List Pedido)
    (acc : List (String × Rat)) (h : (acc.map Prod.fst).Nodup) :
    (((pedidos.foldl (agrupaStep tipo) acc)).map Prod.fst).Nodup := by
  induction pedidos generalizing acc with
  | nil => simpa using h
  | cons p ps ih =>
      rw [List.foldl_cons]
      apply ih
      cases hd : p.data_pedido with
      | missing => simpa [agrupaStep, hd] using h
      | unparseable => simpa [agrupaStep, hd] using h
      | parseable d =>
          simp only [agrupaStep, hd]
          exact addTo_nodup _ _ _ h

theorem agrupaFold_key_mono (tipo : String) (pedidos : List Pedido)
    (acc : List (String × Rat)) (k : String) (h : k ∈ acc.map Prod.fst) :
    k ∈ (pedidos.foldl (agrupaStep tipo) acc).map Prod.fst := by
  induction pedidos generalizing acc with
  | nil => simpa using h
  | cons p ps ih =>
      rw [List.foldl_cons]
      apply ih
      cases hd : p.data_pedido with
      | missing => simpa [agrupaStep, hd] using h
      | unparseable => simpa [agrupaStep, hd] using h
      | parseable d =>
          simp only [agrupaStep, hd]
          exact addTo_key_mono _ _ _ _ h

/-- C1: calculate_total_sales returns the sum over the batch of per-order
contributions, where an order with line items contributes the sum of unit
price times quantity over its line items and an order without line items
contributes its total value; it returns 0.0 on an empty batch, and 350 on
the three-order scenario batch with total values 100, 200 and 50 and no
line items. -/
theorem claim_C1 :
    (∀ pedidos : List Pedido,
        calcular_vendas_totais pedidos = (pedidos.map pedidoContrib).sum) ∧
    calcular_vendas_totais [] = 0 ∧
    calcular_vendas_totais cenarioLote = 350 := by
  refine ⟨calcular_vendas_totais_eq_sum, rfl, ?_⟩
  rw [calcular_vendas_totais_eq_sum]
  norm_num [cenarioLote, pedidoContrib]

/-- C10: an order whose itens key is present but holds an empty list
contributes 0 to calculate_total_sales rather than falling back to its
total value: presence of the key, not non-emptiness, selects the
line-item branch. -/
theorem claim_C10 (l1 l2 : List Pedido) (p : Pedido) (h : p.itens = some []) :
    pedidoContrib p = 0 ∧
    calcular_vendas_totais (l1 ++ p :: l2) = calcular_vendas_totais (l1 ++ l2) := by
  have hc : pedidoContrib p = 0 := by simp [pedidoContrib, h]
  refine ⟨hc, ?_⟩
  rw [calcular_vendas_totais_eq_sum, calcular_vendas_totais_eq_sum]
  simp [hc]

/-- Witness for C10 at a concrete order with empty line items and total
value 50: the order contributes 0, not 50. -/
theorem claim_C10_witness :
    pedidoItensVazio.itens = some [] ∧
    pedidoContrib pedidoItensVazio = 0 ∧
    calcular_vendas_totais ([] ++ pedidoItensVazio :: []) =
      calcular_vendas_totais ([] ++ []) ∧
    pedidoItensVazio.valorTotal = 50 :=
  ⟨rfl, (claim_C10 [] [] pedidoItensVazio rfl).1,
    (claim_C10 [] [] pedidoItensVazio rfl).2, rfl⟩

/-- C2: on a nonempty batch the core metrics satisfy average_ticket times
order_count = total_sales exactly (floats embedded as rationals), with
order_count the batch length and total_sales the value of
calcular_vendas_totais. -/
theorem claim_C2 (pedidos : List Pedido) (agora : DT) (h : pedidos ≠ []) :
    (calcular_metricas_principais pedidos agora).ticket_medio *
        ((calcular_metricas_principais pedidos agora).total_pedidos : Rat) =
      calcular_vendas_totais pedidos ∧
    (calcular_metricas_principais pedidos agora).total_pedidos = pedidos.length ∧
    (calcular_metricas_principais pedidos agora).vendas_totais =
      calcular_vendas_totais pedidos := by
  have hlen : pedidos.length ≠ 0 := fun hl => h (List.length_eq_zero.mp hl)
  have hpos : 0 < pedidos.length := Nat.pos_of_ne_zero hlen
  have hcast : ((pedidos.length : Nat) : Rat) ≠ 0 := Nat.cast_ne_zero.mpr hlen
  have hm : calcular_metricas_principais pedidos agora =
      ⟨calcular_vendas_totais pedidos,
        calcular_vendas_totais pedidos / pedidos.length, pedidos.length,
        calcular_crescimento_vendas pedidos 30 agora⟩ := by
    simp [calcular_metricas_principais, h, hpos]
  rw [hm]
  exact ⟨div_mul_cancel₀ _ hcast, rfl, rfl⟩

/-- Witness for C2 on the three-order scenario batch. -/
theorem claim_C2_witness :
    cenarioLote ≠ [] ∧
    (calcular_metricas_principais cenarioLote cenarioAgora).ticket_medio *
        ((calcular_metricas_principais cenarioLote cenarioAgora).total_pedidos : Rat) =
      calcular_vendas_totais cenarioLote :=
  ⟨by decide, (claim_C2 cenarioLote cenarioAgora (by decide)).1⟩

theorem pairwise_trivial {α : Type} (l : List α) :
    l.Pairwise (fun _ _ => True) := by
  induction l with
  | nil => exact List.Pairwise.nil
  | cons x t ih => exact List.Pairwise.cons (fun _ _ => trivial) ih

/-- C4: the keys of group_by_period are strictly ascending under string
comparison, and the bucket values sum to the total valor_total of exactly
the orders whose timestamp is present and parseable. -/
theorem claim_C4 (pedidos : List Pedido) (tipo : String) :
    (agrupar_por_periodo pedidos tipo).Pairwise (fun a b => a.1 < b.1) ∧
    ((agrupar_por_periodo pedidos tipo).map Prod.snd).sum =
      ((pedidos.filter temDataValida).map Pedido.valorTotal).sum := by
  constructor
  · apply sortBy_pairwise (S := fun a b : String × Rat => a.1 ≠ b.1)
    · intro a b c hab hbc
      exact decide_eq_true (le_of_lt (lt_of_le_of_lt (of_decide_eq_true hab) hbc))
    · intro a b hS hle
      exact lt_of_le_of_ne (of_decide_eq_true hle) hS
    · intro a b hS hle
      exact lt_of_not_le (of_decide_eq_false hle)
    · exact List.pairwise_map.mp (agrupaFold_nodup tipo pedidos [] (by simp))
  · have hperm :=
      ((sortBy_perm (fun a b : String × Rat => decide (a.1 ≤ b.1))
        (pedidos.foldl (agrupaStep tipo) [])).map Prod.snd).sum_eq
    have hsum := agrupaFold_sum tipo pedidos []
    calc ((agrupar_por_periodo pedidos tipo).map Prod.snd).sum
        = (((pedidos.foldl (agrupaStep tipo) []).map Prod.snd)).sum := hperm
      _ = ((pedidos.filter temDataValida).map Pedido.valorTotal).sum := by
          simpa using hsum

/-- C7: the ranking of top_items is sorted descending by quantidade_total,
holds at most limite entries, and the sort is stable: for every quantity
value the entries carrying it appear in the same order as in the counter,
whose entries are in first-encounter order of the item names. -/
theorem claim_C7 (pedidos : List Pedido) (limite : Nat) :
    (itens_mais_populares pedidos limite).Pairwise
      (fun a b => b.quantidade_total ≤ a.quantidade_total) ∧
    (itens_mais_populares pedidos limite).length ≤ limite ∧
    ∀ q : Rat,
      (itensOrdenados pedidos).filter (fun e => decide (e.quantidade_total = q)) =
        (contadorItens pedidos).filter (fun e => decide (e.quantidade_total = q)) := by
  refine ⟨?_, ?_, ?_⟩
  · apply List.Pairwise.sublist (List.take_sublist _ _)
    apply sortBy_pairwise (S := fun _ _ => True)
    · intro a b c hab hbc
      exact decide_eq_true (le_trans hbc (of_decide_eq_true hab))
    · intro a b _ hle
      exact of_decide_eq_true hle
    · intro a b _ hle
      exact le_of_lt (lt_of_not_le (of_decide_eq_false hle))
    · exact pairwise_trivial _
  · exact List.length_take_le _ _
  · intro q
    apply sortBy_filter
    intro x h hpx hle
    apply decide_eq_false
    intro hh
    exact (of_decide_eq_false hle)
      (le_of_eq (hh.trans (of_decide_eq_true hpx).symm))

/-- C8: a record with a present but unparseable timestamp still
contributes its value to calculate_total_sales, adds no key or count to
peak_hours, and adds no key or value to weekday_performance; all three
aggregations are total functions of the batch, so no exception reaches
their caller. -/
theorem claim_C8 (l1 l2 : List Pedido) (bad : Pedido)
    (h : bad.data_pedido = TSField.unparseable) :
    calcular_vendas_totais (l1 ++ bad :: l2) =
      calcular_vendas_totais (l1 ++ l2) + pedidoContrib bad ∧
    horarios_pico (l1 ++ bad :: l2) = horarios_pico (l1 ++ l2) ∧
    dias_semana_performance (l1 ++ bad :: l2) = dias_semana_performance (l1 ++ l2) := by
  refine ⟨?_, ?_, ?_⟩
  · rw [calcular_vendas_totais_eq_sum, calcular_vendas_totais_eq_sum]
    simp only [List.map_append, List.sum_append, List.map_cons, List.sum_cons]
    ring
  · have hstep : ∀ acc, horaStep acc bad = acc := fun acc => by simp [horaStep, h]
    simp [horarios_pico, List.foldl_append, List.foldl_cons, hstep]
  · have hstep : ∀ acc, diaSemanaStep acc bad = acc := fun acc => by
      simp [diaSemanaStep, h]
    simp [dias_semana_performance, List.foldl_append, List.foldl_cons, hstep]

/-- Witness for C8: appending an order with an unparseable timestamp and
value 75 to the scenario batch raises total sales by 75 and leaves
peak_hours and weekday_performance unchanged. -/
theorem claim_C8_witness :
    pedidoDataRuim.data_pedido = TSField.unparseable ∧
    calcular_vendas_totais (cenarioLote ++ pedidoDataRuim :: []) =
      calcular_vendas_totais (cenarioLote ++ []) + pedidoContrib pedidoDataRuim ∧
    horarios_pico (cenarioLote ++ pedidoDataRuim :: []) =
      horarios_pico (cenarioLote ++ []) ∧
    dias_semana_performance (cenarioLote ++ pedidoDataRuim :: []) =
      dias_semana_performance (cenarioLote ++ []) :=
  ⟨rfl, (claim_C8 cenarioLote [] pedidoDataRuim rfl).1,
    (claim_C8 cenarioLote [] pedidoDataRuim rfl).2.1,
    (claim_C8 cenarioLote [] pedidoDataRuim rfl).2.2⟩

/-- C6: forecast returns exactly dias_futuros equal values — zeros when
grouping by day yields no buckets, otherwise the mean of the last 7 daily
bucket values when at least 7 exist, else the mean of all bucket
values — and on the ten-consecutive-day scenario batch forecast(7) is
seven copies of the mean 70 of the last seven daily totals. -/
theorem claim_C6 (pedidos : List Pedido) (dias_futuros : Nat) :
    previsao_vendas_simples pedidos dias_futuros =
      List.replicate dias_futuros
        (if agrupar_por_periodo pedidos "dia" = [] then 0
         else
           if 7 ≤ ((agrupar_por_periodo pedidos "dia").map Prod.snd).length then
             (((agrupar_por_periodo pedidos "dia").map Prod.snd).drop
               (((agrupar_por_periodo pedidos "dia").map Prod.snd).length - 7)).sum / 7
           else ((agrupar_por_periodo pedidos "dia").map Prod.snd).sum /
             (((agrupar_por_periodo pedidos "dia").map Prod.snd).length : Rat)) ∧
    previsao_vendas_simples cenarioLote10 7 = List.replicate 7 70 := by
  constructor
  · by_cases hp : pedidos = []
    · subst hp
      simp [previsao_vendas_simples, agrupar_por_periodo, sortBy]
    · by_cases hv : agrupar_por_periodo pedidos "dia" = []
      · simp [previsao_vendas_simples, hp, hv]
      · simp [previsao_vendas_simples, hp, hv]
  · simp +decide [previsao_vendas_simples, cenarioLote10, agrupar_por_periodo, agrupaStep,
      chavePeriodo, addTo, Pedido.valorTotal, DT.fmtDay, pad4, pad2, sortBy, insertBy]
    norm_num

/-- C5 counterexample: the order placed on 2021-01-01 lands in the week
bucket "2021-S53", built from the calendar year attribute 2021, while the
ISO calendar of that date is year 2020, week 53, so the key demanded by
the claim would be "2020-S53". -/
theorem claim_C5_counterexample :
    agrupar_por_periodo [pedidoViradaAno] "semana" = [("2021-S53", 10)] ∧
    (DT.mk 2021 1 1 0 0 0).isocalendar = (2020, 53) ∧
    (toString (DT.mk 2021 1 1 0 0 0).isocalendar.1 ++ "-S" ++
        toString (DT.mk 2021 1 1 0 0 0).isocalendar.2) = "2020-S53" ∧
    ("2021-S53" : String) ≠ "2020-S53" :=
  ⟨by decide, by decide, by decide, by decide⟩

/-- C5 amended: the week bucket key of a parseable timestamp is its
calendar year attribute (not the ISO year) followed by "-S" and its ISO
week number, and every order with a parseable timestamp has its week key
present among the output buckets. -/
theorem claim_C5 (pedidos : List Pedido) (p : Pedido) (d : DT)
    (hp : p ∈ pedidos) (hd : p.data_pedido = TSField.parseable d) :
    chavePeriodo "semana" d =
      toString d.year ++ "-S" ++ toString d.isocalendar.2 ∧
    (toString d.year ++ "-S" ++ toString d.isocalendar.2) ∈
      (agrupar_por_periodo pedidos "semana").map Prod.fst := by
  have hkey : chavePeriodo "semana" d =
      toString d.year ++ "-S" ++ toString d.isocalendar.2 := rfl
  refine ⟨hkey, ?_⟩
  obtain ⟨s, t, rfl⟩ := List.append_of_mem hp
  have hperm := (sortBy_perm (fun a b : String × Rat => decide (a.1 ≤ b.1))
      ((s ++ p :: t).foldl (agrupaStep "semana") [])).map Prod.fst
  rw [agrupar_por_periodo, hperm.mem_iff, List.foldl_append, List.foldl_cons]
  apply agrupaFold_key_mono
  have hstep : agrupaStep "semana" (s.foldl (agrupaStep "semana") []) p =
      addTo (s.foldl (agrupaStep "semana") []) (chavePeriodo "semana" d)
        p.valorTotal := by
    simp [agrupaStep, hd]
  rw [hstep, ← hkey]
  exact addTo_key_mem _ _ _

/-- Witness for the amended C5 at the year-boundary order. -/
theorem claim_C5_witness :
    pedidoViradaAno ∈ [pedidoViradaAno] ∧
    pedidoViradaAno.data_pedido = TSField.parseable ⟨2021, 1, 1, 0, 0, 0⟩ ∧
    (chavePeriodo "semana" ⟨2021, 1, 1, 0, 0, 0⟩ =
        toString (DT.mk 2021 1 1 0 0 0).year ++ "-S" ++
          toString (DT.mk 2021 1 1 0 0 0).isocalendar.2 ∧
      (toString (DT.mk 2021 1 1 0 0 0).year ++ "-S" ++
          toString (DT.mk 2021 1 1 0 0 0).isocalendar.2) ∈
        (agrupar_por_periodo [pedidoViradaAno] "semana").map Prod.fst) :=
  ⟨List.mem_singleton_self _, rfl,
    claim_C5 [pedidoViradaAno] pedidoViradaAno ⟨2021, 1, 1, 0, 0, 0⟩
      (List.mem_singleton_self _) rfl⟩

/-- The growth-window partition loop is the pair of window filters. -/
theorem crescFold_eq_filter (pa pb : Int) (pedidos : List Pedido)
    (acc : List Pedido × List Pedido) :
    pedidos.foldl (crescStep pa pb) acc =
      (acc.1 ++ pedidos.filter (naJanelaAtual pa),
       acc.2 ++ pedidos.filter (naJanelaAnterior pa pb)) := by
  induction pedidos generalizing acc with
  | nil => simp
  | cons p ps ih =>
      rw [List.foldl_cons, ih]
      cases hd : p.data_pedido with
      | missing => simp [crescStep, hd, naJanelaAtual, naJanelaAnterior, List.filter_cons]
      | unparseable =>
          simp [crescStep, hd, naJanelaAtual, naJanelaAnterior, List.filter_cons]
      | parseable d =>
          by_cases h1 : pa ≤ d.toSec
          · simp [crescStep, hd, naJanelaAtual, naJanelaAnterior, List.filter_cons, h1]
          · by_cases h2 : pb ≤ d.toSec ∧ d.toSec < pa
            · simp [crescStep, hd, naJanelaAtual, naJanelaAnterior, List.filter_cons,
                h1, h2]
            · simp [crescStep, hd, naJanelaAtual, naJanelaAnterior, List.filter_cons,
                h1, h2]

/-- C3: growth_rate returns exactly 100.0 when the previous-window total
is zero and the current-window total positive, 0.0 when both are zero,
and otherwise round(100 × (current − previous) / previous, 2), the
current window holding orders with timestamp at least agora − dias days
and the previous window the dias days before that. -/
theorem claim_C3 (pedidos : List Pedido) (dias : Nat) (agora : DT) :
    (vendasJanelaAnterior pedidos dias agora = 0 →
        0 < vendasJanelaAtual pedidos dias agora →
        calcular_crescimento_vendas pedidos dias agora = 100) ∧
    (vendasJanelaAnterior pedidos dias agora = 0 →
        vendasJanelaAtual pedidos dias agora = 0 →
        calcular_crescimento_vendas pedidos dias agora = 0) ∧
    (vendasJanelaAnterior pedidos dias agora ≠ 0 →
        calcular_crescimento_vendas pedidos dias agora =
          round2 (100 * (vendasJanelaAtual pedidos dias agora -
              vendasJanelaAnterior pedidos dias agora) /
            vendasJanelaAnterior pedidos dias agora)) := by
  have hfold := crescFold_eq_filter (agora.toSec - (dias : Int) * 86400)
      (agora.toSec - (dias : Int) * 86400 - (dias : Int) * 86400) pedidos ([], [])
  have heq : calcular_crescimento_vendas pedidos dias agora =
      if vendasJanelaAnterior pedidos dias agora = 0 then
        (if 0 < vendasJanelaAtual pedidos dias agora then 100 else 0)
      else round2 ((vendasJanelaAtual pedidos dias agora -
          vendasJanelaAnterior pedidos dias agora) /
          vendasJanelaAnterior pedidos dias agora * 100) := by
    simp only [calcular_crescimento_vendas, hfold]
    simp [vendasJanelaAtual, vendasJanelaAnterior]
  refine ⟨?_, ?_, ?_⟩
  · intro h1 h2
    rw [heq, if_pos h1, if_pos h2]
  · intro h1 h2
    rw [heq, if_pos h1, if_neg]
    rw [h2]
    exact lt_irrefl 0
  · intro h1
    rw [heq, if_neg h1]
    congr 1
    ring

/-- Witness for C3 on three concrete inputs, one per branch: the scenario
batch against a previous window with no sales (100.0), the empty batch
(0.0), and a two-order batch with one order in each window (50.0 growth
via the rounding formula). -/
theorem claim_C3_witness :
    (vendasJanelaAnterior cenarioLote 30 cenarioAgora = 0 ∧
      0 < vendasJanelaAtual cenarioLote 30 cenarioAgora ∧
      calcular_crescimento_vendas cenarioLote 30 cenarioAgora = 100) ∧
    (vendasJanelaAnterior [] 30 cenarioAgora = 0 ∧
      vendasJanelaAtual [] 30 cenarioAgora = 0 ∧
      calcular_crescimento_vendas [] 30 cenarioAgora = 0) ∧
    (vendasJanelaAnterior cenarioCrescimento 3 cenarioAgora ≠ 0 ∧
      calcular_crescimento_vendas cenarioCrescimento 3 cenarioAgora =
        round2 (100 * (vendasJanelaAtual cenarioCrescimento 3 cenarioAgora -
            vendasJanelaAnterior cenarioCrescimento 3 cenarioAgora) /
          vendasJanelaAnterior cenarioCrescimento 3 cenarioAgora)) := by
  have ha : vendasJanelaAnterior cenarioLote 30 cenarioAgora = 0 := by
    simp +decide [vendasJanelaAnterior, cenarioLote, naJanelaAnterior, cenarioAgora,
      cenarioDia1, cenarioDia2, DT.toSec, DT.toOrdinal, ymd2ord, daysBeforeYear,
      daysBeforeMonth, calcular_vendas_totais]
  have hb : 0 < vendasJanelaAtual cenarioLote 30 cenarioAgora := by
    simp +decide [vendasJanelaAtual, cenarioLote, naJanelaAtual, cenarioAgora,
      cenarioDia1, cenarioDia2, DT.toSec, DT.toOrdinal, ymd2ord, daysBeforeYear,
      daysBeforeMonth, calcular_vendas_totais, itemContrib]
    norm_num
  have hc : vendasJanelaAnterior [] 30 cenarioAgora = 0 := by
    simp [vendasJanelaAnterior, calcular_vendas_totais]
  have hd : vendasJanelaAtual [] 30 cenarioAgora = 0 := by
    simp [vendasJanelaAtual, calcular_vendas_totais]
  have he : vendasJanelaAnterior cenarioCrescimento 3 cenarioAgora ≠ 0 := by
    simp +decide [vendasJanelaAnterior, cenarioCrescimento, naJanelaAnterior,
      cenarioAgora, DT.toSec, DT.toOrdinal, ymd2ord, daysBeforeYear,
      daysBeforeMonth, calcular_vendas_totais]
  exact ⟨⟨ha, hb, (claim_C3 cenarioLote 30 cenarioAgora).1 ha hb⟩,
    ⟨hc, hd, (claim_C3 [] 30 cenarioAgora).2.1 hc hd⟩,
    ⟨he, (claim_C3 cenarioCrescimento 3 cenarioAgora).2.2 he⟩⟩

/-- C9 counterexample: the same (empty) batch at two different invocation
instants yields two different reports, because data_geracao embeds the
wall-clock instant of the call (the growth and trend windows also move
with it). -/
theorem claim_C9_counterexample :
    gerar_relatorio_completo [] ⟨2024, 1, 1, 0, 0, 0⟩ ≠
      gerar_relatorio_completo [] ⟨2024, 1, 2, 0, 0, 0⟩ := by
  intro h
  exact absurd (congrArg Relatorio.data_geracao h) (by decide)

/-- C9 amended: all bucket and ranking components of the full report
(period breakdowns, peak hours, weekday performance, top items), and also
the forecast and the advanced statistics, are deterministic functions of
the input batch alone; the full report additionally depends on the
invocation instant through the generation timestamp and the growth and
trend windows, so only invocations at the same instant yield equal
reports. -/
theorem claim_C9 (pedidos : List Pedido) (t1 t2 : DT) :
    (gerar_relatorio_completo pedidos t1).vendas_por_dia =
      (gerar_relatorio_completo pedidos t2).vendas_por_dia ∧
    (gerar_relatorio_completo pedidos t1).vendas_por_semana =
      (gerar_relatorio_completo pedidos t2).vendas_por_semana ∧
    (gerar_relatorio_completo pedidos t1).vendas_por_mes =
      (gerar_relatorio_completo pedidos t2).vendas_por_mes ∧
    (gerar_relatorio_completo pedidos t1).horarios_pico =
      (gerar_relatorio_completo pedidos t2).horarios_pico ∧
    (gerar_relatorio_completo pedidos t1).dias_semana_performance =
      (gerar_relatorio_completo pedidos t2).dias_semana_performance ∧
    (gerar_relatorio_completo pedidos t1).itens_mais_vendidos =
      (gerar_relatorio_completo pedidos t2).itens_mais_vendidos ∧
    (gerar_relatorio_completo pedidos t1).estatisticas_avancadas =
      (gerar_relatorio_completo pedidos t2).estatisticas_avancadas ∧
    (gerar_relatorio_completo pedidos t1).previsao_vendas =
      (gerar_relatorio_completo pedidos t2).previsao_vendas :=
  ⟨rfl, rfl, rfl, rfl, rfl, rfl, rfl, rfl⟩
